import Mathlib

/-!
Verification of the libhdfs++ client RPC engine specification against the
repository sources.

The embedding below follows the sources under
`hadoop-hdfs-project/hadoop-hdfs-native-client/src/main/native/`:

* `libhdfspp/tests/rpc_engine_test.cc` — the `RpcResponse` frame encoder and
  the RPC-engine test scenarios;
* `libhdfspp/lib/connection/datanodeconnection.cc` — DataNode connection
  `async_read_some` / `async_write_some`;
* `libhdfs/os/windows/thread_local_storage.c` — thread-local-storage helpers
  and the thread-destructor cleanup path.

The RPC engine, connection state machine, framer decoder and retry policy
implementations (`rpc_engine.cc`, `rpc_connection_impl.h`, `retry_policy.cc`)
are not part of the source tree being checked; where a claim depends on them,
the corresponding definition is modelled from the specification text and its
doc comment says so explicitly.
-/

/- ===================== Framing (spec section 4.1) ===================== -/

/-- Protobuf base-128 varint encoding of a natural number, least-significant
group first, continuation bit (0x80) on every byte but the last.  This embeds
`google::protobuf::io::CodedOutputStream::WriteVarint32ToArray` as used by the
`RpcResponse` encoder in `rpc_engine_test.cc`. -/
def writeVarint32 (n : Nat) : List Nat :=
  if h : n < 128 then [n]
  else (n % 128 + 128) :: writeVarint32 (n / 128)
termination_by n
decreasing_by exact Nat.div_lt_self (by omega) (by omega)

/-- Size in bytes of the varint encoding of `n`; embeds
`CodedOutputStream::VarintSize32` used when computing `payload_length`. -/
def varintSize32 (n : Nat) : Nat :=
  (writeVarint32 n).length

/-- Varint decoding: reads base-128 groups while the continuation bit is set.
Returns the decoded value and the remaining bytes, or `none` if the buffer
ends inside a varint. -/
def readVarint : List Nat → Option (Nat × List Nat)
  | [] => none
  | b :: rest =>
    if b < 128 then some (b, rest)
    else
      match readVarint rest with
      | some (v, rest2) => some (b - 128 + 128 * v, rest2)
      | none => none

/-- Four-byte big-endian encoding of a 32-bit value; embeds
`WriteLittleEndian32ToArray(htonl(payload_length), buf)` from `RpcResponse`
(`htonl` byte-swaps, so the bytes land on the wire most-significant first). -/
def beBytes32 (n : Nat) : List Nat :=
  [n / 2 ^ 24 % 256, n / 2 ^ 16 % 256, n / 2 ^ 8 % 256, n % 256]

/-- The `payload_length` computed by `RpcResponse` in `rpc_engine_test.cc`:
`VarintSize32(h.ByteSize()) + VarintSize32(data.size()) + h.ByteSize() +
data.size()`. -/
def payloadLength (header body : List Nat) : Nat :=
  varintSize32 header.length + varintSize32 body.length +
    header.length + body.length

/-- The frame encoder, embedding `RpcResponse` from `rpc_engine_test.cc`
(lines 82–102): a big-endian `u32` total length, then varint header length,
header bytes, varint body length, body bytes. -/
def RpcResponse (header body : List Nat) : List Nat :=
  beBytes32 (payloadLength header body) ++
    writeVarint32 header.length ++ header ++
    writeVarint32 body.length ++ body

/-- Modelled from the spec: the Framer decoder (section 4.1); the decoding
side lives in `rpc_connection_impl.h`, which is not in the source tree.  It
reads the big-endian `u32` total length, answers `none` (NeedMore) when the
buffer holds less than a full frame, then splits off the varint-delimited
header and body. -/
def decodeFrame (buffer : List Nat) : Option (List Nat × List Nat) :=
  match buffer with
  | b0 :: b1 :: b2 :: b3 :: rest =>
    let totalLen := b0 * 2 ^ 24 + b1 * 2 ^ 16 + b2 * 2 ^ 8 + b3
    if rest.length < totalLen then none
    else
      match readVarint rest with
      | none => none
      | some (hlen, r1) =>
        if r1.length < hlen then none
        else
          match readVarint (r1.drop hlen) with
          | none => none
          | some (blen, r2) =>
            if r2.length < blen then none
            else some (r1.take hlen, r2.take blen)
  | _ => none

theorem readVarint_writeVarint32 (n : Nat) (rest : List Nat) :
    readVarint (writeVarint32 n ++ rest) = some (n, rest) := by
  induction n using Nat.strong_induction_on with
  | _ n ih =>
    rw [writeVarint32]
    by_cases h : n < 128
    · simp [h, readVarint]
    · have hpos : 0 < n := by omega
      have hdiv : n / 128 < n := Nat.div_lt_self hpos (by omega)
      have hge : ¬ (n % 128 + 128 < 128) := by omega
      simp only [h, dite_false, List.cons_append, readVarint, hge, if_false]
      rw [ih (n / 128) hdiv]
      simp only [Option.some.injEq, Prod.mk.injEq]
      exact ⟨by omega, trivial⟩

theorem beBytes32_length (n : Nat) : (beBytes32 n).length = 4 := rfl

theorem writeVarint32_length_eq (n : Nat) :
    (writeVarint32 n).length = varintSize32 n := rfl

theorem writeVarint32_small (n : Nat) (h : n < 128) : writeVarint32 n = [n] := by
  rw [writeVarint32]
  simp [h]

theorem takeAppendLeft {α : Type} (l₁ l₂ : List α) :
    (l₁ ++ l₂).take l₁.length = l₁ := by
  induction l₁ with
  | nil => simp
  | cons a t ih => simp [ih]

theorem dropAppendLeft {α : Type} (l₁ l₂ : List α) :
    (l₁ ++ l₂).drop l₁.length = l₂ := by
  induction l₁ with
  | nil => simp
  | cons a t ih => simp [ih]

/-- C1.  For every header `h` and body `b` whose frame fits in the 32-bit
total-length field, decoding the frame produced by the encoder (`RpcResponse`
from `rpc_engine_test.cc`) returns exactly the pair `(h, b)`: the frame is a
big-endian `u32` total length followed by varint header length, header bytes,
varint body length and body bytes, with the total length equal to
`varint_size(header_len) + header_len + varint_size(body_len) + body_len`. -/
theorem c1_frame_roundtrip (header body : List Nat)
    (hfit : payloadLength header body < 2 ^ 32) :
    decodeFrame (RpcResponse header body) = some (header, body) := by
  have hlen : (writeVarint32 header.length ++ (header ++
      (writeVarint32 body.length ++ body))).length = payloadLength header body := by
    simp only [List.length_append, varintSize32, payloadLength]
    omega
  simp only [RpcResponse, beBytes32, List.cons_append, List.nil_append,
    List.append_assoc]
  simp only [decodeFrame]
  have htot : payloadLength header body / 2 ^ 24 % 256 * 2 ^ 24 +
      payloadLength header body / 2 ^ 16 % 256 * 2 ^ 16 +
      payloadLength header body / 2 ^ 8 % 256 * 2 ^ 8 +
      payloadLength header body % 256 = payloadLength header body := by
    omega
  rw [htot, hlen]
  simp only [lt_irrefl, if_false]
  rw [readVarint_writeVarint32 header.length (header ++ (writeVarint32 body.length ++ body))]
  have hnot1 : ¬ ((header ++ (writeVarint32 body.length ++ body)).length < header.length) := by
    simp only [List.length_append]
    omega
  simp only [hnot1, if_false]
  rw [takeAppendLeft header (writeVarint32 body.length ++ body),
    dropAppendLeft header (writeVarint32 body.length ++ body)]
  rw [readVarint_writeVarint32 body.length body]
  simp only [lt_irrefl, if_false, List.take_length]

/-- Witness for C1 at a concrete frame: header `[8, 1, 42]`, body `[7, 7]`. -/
theorem c1_frame_roundtrip_witness :
    payloadLength [8, 1, 42] [7, 7] < 2 ^ 32 ∧
      decodeFrame (RpcResponse [8, 1, 42] [7, 7]) = some ([8, 1, 42], [7, 7]) :=
  ⟨by norm_num [payloadLength, varintSize32, writeVarint32_small],
    c1_frame_roundtrip [8, 1, 42] [7, 7]
      (by norm_num [payloadLength, varintSize32, writeVarint32_small])⟩

/- ============ Status and retry policy (spec sections 4.4, 7) ============ -/

/-- Error kinds of the engine's taxonomy (spec section 7); `genericErr` stands
for `Status::Error` as produced by `event_response::test_err` in the tests. -/
inductive ErrKind where
  | connectionReset
  | connectionRefused
  | timedOut
  | endOfFile
  | genericErr
deriving DecidableEq, Repr

/-- A completion status handed to continuations: `ok` or an error with a kind
and a message, mirroring `Status` in the libhdfs++ API. -/
inductive Status where
  | ok
  | err (kind : ErrKind) (msg : String)
deriving DecidableEq, Repr

/-- Retryable transport-class error kinds; spec section 4.4 lists
`{CONNECTION_RESET, CONNECTION_REFUSED, TIMEOUT, EOF}`. -/
def isRetryableErr : ErrKind → Bool
  | .connectionReset => true
  | .connectionRefused => true
  | .timedOut => true
  | .endOfFile => true
  | .genericErr => false

/-- What the retry policy decides for one failed attempt. -/
inductive RetryAction where
  | retryAct (delayMs : Nat)
  | failAct
deriving DecidableEq, Repr

/-- Modelled from the spec: the default retry policy for a CALL operation
with a single endpoint (section 4.4) — `RETRY(rpc_retry_delay_ms)` if
`attempts ≤ max_rpc_retries` and the error kind is retryable, else `FAIL`.
The policy sources (`retry_policy.cc`) are not in the source tree. -/
def defaultRetryPolicy (maxRetries delayMs attempts : Nat) (e : ErrKind) :
    RetryAction :=
  if attempts ≤ maxRetries ∧ isRetryableErr e then .retryAct delayMs
  else .failAct

/- ============== RPC call retry loop (spec sections 4.5, 8) ============== -/

/-- One result of the mock connection's `Produce()` for the read path of a
call: either a SUCCESS response frame carrying a body, or a transport error
(the `(error_code, data)` pairs in `rpc_engine_test.cc`). -/
inductive ReadResult where
  | readOk (body : String)
  | readErr (e : ErrKind)
deriving DecidableEq, Repr

/-- The observable outcome of driving one `AsyncRpc` to completion. -/
structure RpcOutcome where
  dones : List Status
  resp : Option String
  produceCalls : Nat
  finalAttempts : Nat
deriving DecidableEq, Repr

/-- Modelled from the spec: the engine's retry loop for one `AsyncRpc`
(section 4.5) driven by a mock `Produce()` script.  Each attempt consumes one
mock result; on a transport error the engine consults the default retry policy
with the call's incremented `attempts` counter and either resubmits or fails
the call; the continuation invocations are accumulated in `dones`.  An
exhausted script completes the call with an EOF transport error.  The engine
sources (`rpc_engine.cc`) are not in the source tree. -/
def rpcLoop (maxRetries delayMs : Nat) :
    List ReadResult → Nat → RpcOutcome
  | [], a => ⟨[Status.err .endOfFile "mock exhausted"], none, 0, a⟩
  | r :: rest, a =>
    match r with
    | .readOk body => ⟨[Status.ok], some body, 1, a⟩
    | .readErr e =>
      match defaultRetryPolicy maxRetries delayMs (a + 1) e with
      | .retryAct _ =>
        let o := rpcLoop maxRetries delayMs rest (a + 1)
        { o with produceCalls := o.produceCalls + 1 }
      | .failAct => ⟨[Status.err e ""], none, 1, a + 1⟩

/-- C3.  `TestConnectionResetAndRecover`: with one endpoint,
`max_rpc_retries = 1` and `rpc_retry_delay_ms = 0`, if the connection's first
read fails with CONNECTION_RESET and the retried send receives a SUCCESS
response with body `"foo"`, then the `async_rpc` continuation fires once with
`Status` OK, the response slot holds `"foo"`, and the mock's `Produce` is
invoked exactly twice. -/
theorem c3_reset_and_recover :
    rpcLoop 1 0 [.readErr .connectionReset, .readOk "foo"] 0 =
      ⟨[Status.ok], some "foo", 2, 1⟩ := by
  rfl

/-- C4.  For every accepted `async_rpc`, whatever the retry budget, delay and
mock behaviour, the continuation is invoked exactly once — never zero times
and never twice; completion is reported only through that continuation (the
model is a total function, so no other channel exists). -/
theorem c4_continuation_exactly_once (maxRetries delayMs : Nat)
    (script : List ReadResult) (attempts : Nat) :
    (rpcLoop maxRetries delayMs script attempts).dones.length = 1 := by
  induction script generalizing attempts with
  | nil => rfl
  | cons r rest ih =>
    cases r with
    | readOk body => rfl
    | readErr e =>
      rw [rpcLoop]
      cases defaultRetryPolicy maxRetries delayMs (attempts + 1) e with
      | retryAct d => exact ih (attempts + 1)
      | failAct => rfl

/- ========== Event hooks and the connect retry loop (spec 4.5) ========== -/

/-- The named lifecycle events the engine emits (spec section 4.5);
`FS_NN_CONNECT_EVENT` and friends in the sources. -/
inductive EventName where
  | NN_CONNECT
  | NN_PRE_RPC_RETRY
  | NN_READ
  | NN_WRITE
  | DN_READ_REQ
  | DN_WRITE_REQ
deriving DecidableEq, Repr

/-- The event sink's answer: `event_response::make_ok()` or
`event_response::test_err(Status)` in the sources. -/
inductive EventResp where
  | respOk
  | respErr (s : Status)
deriving DecidableEq, Repr

/-- Engine configuration relevant to the retry loop: the installed event sink
(indexed by the 1-based invocation count, as the test sink counts calls) and
the retry options. -/
structure EngineCfg where
  sink : Nat → EventResp
  maxRetries : Nat
  retryDelayMs : Nat

/-- The sink-invocation counter and the log of events fired, i.e. the
`callbacks` vector kept by `TestEventCallbacks`. -/
structure EvTrace where
  invocations : Nat
  log : List EventName
deriving DecidableEq, Repr

/-- Fire one lifecycle hook: bump the invocation counter, append the event to
the log, and return the sink's answer for this invocation. -/
def fireEvent (cfg : EngineCfg) (t : EvTrace) (e : EventName) :
    EventResp × EvTrace :=
  (cfg.sink (t.invocations + 1), ⟨t.invocations + 1, t.log ++ [e]⟩)

/-- Modelled from the spec: if the sink returns ERROR, the engine treats the
in-progress step as having failed with that Status instead of its real
outcome (section 4.5). -/
def stepOutcome (r : EventResp) (realOutcome : Status) : Status :=
  match r with
  | .respOk => realOutcome
  | .respErr s => s

/-- One mock outcome for a TCP connect attempt. -/
inductive ConnectResult where
  | connOk
  | connErr (e : ErrKind)
deriving DecidableEq, Repr

/-- The `Status` a connect attempt reports before the sink may override it. -/
def connectStatus : ConnectResult → Status
  | .connOk => .ok
  | .connErr e => .err e ""

/-- Modelled from the spec: the engine's connect retry loop (sections 4.4,
4.5).  Each attempt fires `NN_CONNECT` and its outcome may be overridden by
the sink; on failure the engine fires `NN_PRE_RPC_RETRY` (the retry-decision
hook, itself overridable) and retries while the call's `attempts` counter is
within `max_rpc_retries` — a failed connect is a transport-class failure
(section 7), so for the CONNECT operation kind the policy decision depends
only on the attempt count.  Returns the final connect status, the total
number of connect attempts made, and the event trace.  The engine sources
(`rpc_engine.cc`) are not in the source tree. -/
def runConnectPhase (cfg : EngineCfg) :
    List ConnectResult → Nat → EvTrace → Status × Nat × EvTrace
  | [], a, t => (.err .endOfFile "mock exhausted", a, t)
  | r :: rest, a, t =>
    let fired := fireEvent cfg t .NN_CONNECT
    match stepOutcome fired.1 (connectStatus r) with
    | .ok => (.ok, a + 1, fired.2)
    | .err k m =>
      let retryFired := fireEvent cfg fired.2 .NN_PRE_RPC_RETRY
      match retryFired.1 with
      | .respErr s2 => (s2, a + 1, retryFired.2)
      | .respOk =>
        if a + 1 ≤ cfg.maxRetries then
          runConnectPhase cfg rest (a + 1) retryFired.2
        else (.err k m, a + 1, retryFired.2)

/-- A sink that never interferes (no event callback installed). -/
def quietSink : Nat → EventResp := fun _ => .respOk

theorem runConnectPhase_attempts_le (cfg : EngineCfg)
    (script : List ConnectResult) :
    ∀ a t, a ≤ cfg.maxRetries →
      (runConnectPhase cfg script a t).2.1 ≤ cfg.maxRetries + 1 := by
  induction script with
  | nil =>
    intro a t ha
    simpa [runConnectPhase] using Nat.le_succ_of_le ha
  | cons r rest ih =>
    intro a t ha
    rw [runConnectPhase]
    cases stepOutcome (fireEvent cfg t .NN_CONNECT).1 (connectStatus r) with
    | ok => simpa using ha
    | err k m =>
      cases hr : (fireEvent cfg (fireEvent cfg t .NN_CONNECT).2 .NN_PRE_RPC_RETRY).1 with
      | respErr s2 =>
        simp only [hr]
        simpa using ha
      | respOk =>
        simp only [hr]
        by_cases hle : a + 1 ≤ cfg.maxRetries
        · simpa [hle] using ih (a + 1) _ hle
        · simpa [hle] using ha

theorem rpcLoop_attempts_le (maxRetries delayMs : Nat)
    (script : List ReadResult) :
    ∀ a, a ≤ maxRetries →
      (rpcLoop maxRetries delayMs script a).finalAttempts ≤ maxRetries + 1 := by
  induction script with
  | nil =>
    intro a ha
    simpa [rpcLoop] using Nat.le_succ_of_le ha
  | cons r rest ih =>
    intro a ha
    cases r with
    | readOk body => simpa [rpcLoop] using Nat.le_succ_of_le ha
    | readErr e =>
      rw [rpcLoop]
      by_cases hc : a + 1 ≤ maxRetries ∧ isRetryableErr e = true
      · simp only [defaultRetryPolicy, if_pos hc]
        exact ih (a + 1) hc.1
      · simp only [defaultRetryPolicy, if_neg hc]
        exact Nat.succ_le_succ ha

/-- C2.  The call's `attempts` counter never exceeds `max_rpc_retries + 1`:
for every retry budget, sink and mock behaviour, the connect loop makes at
most `max_rpc_retries + 1` attempts, and for every retry budget, delay and
mock script the retried `async_rpc` call's final attempts counter is likewise
at most `max_rpc_retries + 1`; and in the
`TestConnectionFailureRetryAndFailure` scenario — `max_rpc_retries = 2` with a
mock failing every connect with a transport error — the engine makes exactly
3 connect attempts and then fires the connect continuation with the transport
error. -/
theorem c2_attempts_bounded :
    (∀ (cfg : EngineCfg) (script : List ConnectResult) (t : EvTrace),
        (runConnectPhase cfg script 0 t).2.1 ≤ cfg.maxRetries + 1) ∧
      (∀ (maxRetries delayMs : Nat) (script : List ReadResult),
        (rpcLoop maxRetries delayMs script 0).finalAttempts ≤
          maxRetries + 1) ∧
      runConnectPhase ⟨quietSink, 2, 0⟩
          [.connErr .connectionReset, .connErr .connectionReset,
            .connErr .connectionReset] 0 ⟨0, []⟩ =
        (.err .connectionReset "", 3,
          ⟨6, [.NN_CONNECT, .NN_PRE_RPC_RETRY, .NN_CONNECT, .NN_PRE_RPC_RETRY,
            .NN_CONNECT, .NN_PRE_RPC_RETRY]⟩) := by
  refine ⟨?_, ?_, rfl⟩
  · intro cfg script t
    exact runConnectPhase_attempts_le cfg script 0 t (Nat.zero_le _)
  · intro maxRetries delayMs script
    exact rpcLoop_attempts_le maxRetries delayMs script 0 (Nat.zero_le _)

/- ============ Response reading with events (spec 4.1, 4.3, 4.5) ============ -/

/-- Modelled from the spec: the connection's reader loop with event hooks
(sections 4.1, 4.3, 4.5).  Each frame on the wire is read in two socket
operations — the 4-byte length prefix and then the payload — and each read
fires `NN_READ`, overridable by the sink.  A decoded frame whose `call_id`
does not match the in-flight call is a response to a superseded submission
and is dropped (section 4.5: a retried call is re-sent under a fresh id, so
late responses for an old id must be dropped); a matching SUCCESS frame
completes the call with its body.  The connection sources
(`rpc_connection_impl.h`) are not in the source tree. -/
def readFrames (cfg : EngineCfg) (callId : Nat) :
    List (Nat × String) → EvTrace → Status × Option String × EvTrace
  | [], t => (.err .endOfFile "connection closed", none, t)
  | (cid, body) :: rest, t =>
    let lenRead := fireEvent cfg t .NN_READ
    match stepOutcome lenRead.1 .ok with
    | .err k m => (.err k m, none, lenRead.2)
    | .ok =>
      let payloadRead := fireEvent cfg lenRead.2 .NN_READ
      match stepOutcome payloadRead.1 .ok with
      | .err k m => (.err k m, none, payloadRead.2)
      | .ok =>
        if cid = callId then (.ok, some body, payloadRead.2)
        else readFrames cfg callId rest payloadRead.2

/-- Modelled from the spec: one `AsyncRpc` driven end to end with event hooks
(section 4.5).  The engine first drives the connect retry loop; every failed
submission attempt burns a fresh call id (section 4.5: ids are never reused
across retries), so after `a` attempts the call goes on the wire under id
`a`; then the reader loop runs against the scripted frames. -/
def runRpcWithEvents (cfg : EngineCfg) (connScript : List ConnectResult)
    (frames : List (Nat × String)) : Status × Option String × EvTrace :=
  match runConnectPhase cfg connScript 0 ⟨0, []⟩ with
  | (.ok, a, t) => readFrames cfg a frames t
  | (.err k m, _, t) => (.err k m, none, t)

/-- The event sink installed by `TestEventCallbacks`: it forces an error
(`Status::Error("Test")`) on its 1st and 3rd invocations and reports OK
otherwise. -/
def testEventSink : Nat → EventResp := fun n =>
  if n = 1 ∨ n = 3 then .respErr (.err .genericErr "Test") else .respOk

/-- C5.  `TestEventCallbacks`: with a sink that returns ERROR on its 1st and
3rd invocations and OK otherwise (`max_rpc_retries = 99`, zero delay), one
`async_rpc` driven through a twice-subverted connect and a read phase whose
first frame answers a superseded call id emits exactly the 9-event sequence
`[NN_CONNECT, NN_PRE_RPC_RETRY, NN_CONNECT, NN_PRE_RPC_RETRY, NN_CONNECT,
NN_READ, NN_READ, NN_READ, NN_READ]`, and the call finally completes with
Status OK. -/
theorem c5_event_callback_sequence :
    runRpcWithEvents ⟨testEventSink, 99, 0⟩ [.connOk, .connOk, .connOk]
        [(1, "b"), (3, "foo")] =
      (.ok, some "foo",
        ⟨9, [.NN_CONNECT, .NN_PRE_RPC_RETRY, .NN_CONNECT, .NN_PRE_RPC_RETRY,
          .NN_CONNECT, .NN_READ, .NN_READ, .NN_READ, .NN_READ]⟩) := by
  rfl

/- ============= DataNodeConnection (datanodeconnection.cc) ============= -/

/-- What one DataNode-connection I/O submission looks like to an observer:
the events reported to the sink, the exact bytes handed to the socket, and
the outcome the completion handler receives from the socket. -/
structure DnIoResult where
  events : List (EventName × Nat)
  submitted : Option (List Nat)
  handlerResult : Status
deriving DecidableEq, Repr

/-- Embeds `DataNodeConnectionImpl::async_read_some`
(`datanodeconnection.cc`, lines 71–78): `event_handlers_->call("DN_read_req",
"", "", buf.end() - buf.begin())` is invoked once — its return value is
discarded — and then the read is submitted on the socket with the buffer
unchanged; the completion handler receives whatever the socket reports. -/
def async_read_some (sink : EventName → Nat → EventResp) (buf : List Nat)
    (socketOutcome : Status) : DnIoResult :=
  let _r := sink .DN_READ_REQ buf.length
  ⟨[(.DN_READ_REQ, buf.length)], some buf, socketOutcome⟩

/-- Embeds `DataNodeConnectionImpl::async_write_some`
(`datanodeconnection.cc`, lines 80–87), symmetric to `async_read_some` with
the `DN_write_req` event. -/
def async_write_some (sink : EventName → Nat → EventResp) (buf : List Nat)
    (socketOutcome : Status) : DnIoResult :=
  let _r := sink .DN_WRITE_REQ buf.length
  ⟨[(.DN_WRITE_REQ, buf.length)], some buf, socketOutcome⟩

/-- C7 counterexample.  The claim quantifies over all six hooks, including
`DN_READ_REQ`; but `DataNodeConnectionImpl::async_read_some` discards the
sink's return value, so with a sink answering `ERROR(Status::Error("Test"))`
the read step still completes with its real outcome (here OK), not with the
injected Status. -/
theorem c7_dn_hook_counterexample :
    (async_read_some (fun _ _ => .respErr (.err .genericErr "Test")) [0, 1, 2]
        Status.ok).handlerResult = Status.ok ∧
      Status.ok ≠ Status.err .genericErr "Test" :=
  ⟨rfl, fun h => Status.noConfusion h⟩

/-- Modelled from the spec: the connection's write pass (section 4.3) with
event hooks (section 4.5).  The pass drains the pending queue one call at a
time; each socket write fires `NN_WRITE`, overridable by the sink; a write
failure aborts the pass with that status, leaving the remaining calls
unwritten.  Returns the pass status, the method names actually written, and
the event trace.  The connection sources (`rpc_connection_impl.h`) are not in
the source tree. -/
def writePass (cfg : EngineCfg) :
    List String → EvTrace → Status × List String × EvTrace
  | [], t => (.ok, [], t)
  | callName :: rest, t =>
    let fired := fireEvent cfg t .NN_WRITE
    match stepOutcome fired.1 .ok with
    | .err k m => (.err k m, [], fired.2)
    | .ok =>
      let o := writePass cfg rest fired.2
      (o.1, callName :: o.2.1, o.2.2)

/-- C7 as amended.  For the NameNode-side hooks the engine emits
(`NN_CONNECT`, `NN_PRE_RPC_RETRY`, `NN_READ`, `NN_WRITE`), an ERROR answer
from the sink makes the engine treat the in-progress step as having failed
with that Status — a mock-successful connect attempt surfaces the injected
Status to the caller, a read step fails with the injected Status before the
frame is examined, and a write pass fails with the injected Status before
anything is written; the DataNode hooks (`DN_READ_REQ`, `DN_WRITE_REQ`) are
reported for observability only: the sink's answer is discarded and the I/O
proceeds with its real outcome. -/
theorem c7_hook_override_amended :
    (∀ (k : ErrKind) (m : String) (cs : List ConnectResult)
        (fr : List (Nat × String)),
        runRpcWithEvents ⟨fun _ => .respErr (.err k m), 0, 0⟩ (.connOk :: cs)
            fr =
          (.err k m, none, ⟨2, [.NN_CONNECT, .NN_PRE_RPC_RETRY]⟩)) ∧
      (∀ (k : ErrKind) (m : String) (mr d : Nat) (cid : Nat) (body : String)
          (rest : List (Nat × String)) (callId : Nat) (t : EvTrace),
          readFrames ⟨fun _ => .respErr (.err k m), mr, d⟩ callId
              ((cid, body) :: rest) t =
            (.err k m, none, ⟨t.invocations + 1, t.log ++ [.NN_READ]⟩)) ∧
      (∀ (k : ErrKind) (m : String) (mr d : Nat) (callName : String)
          (rest : List String) (t : EvTrace),
          writePass ⟨fun _ => .respErr (.err k m), mr, d⟩ (callName :: rest)
              t =
            (.err k m, [], ⟨t.invocations + 1, t.log ++ [.NN_WRITE]⟩)) ∧
      (∀ (s1 s2 : EventName → Nat → EventResp) (buf : List Nat) (so : Status),
          async_read_some s1 buf so = async_read_some s2 buf so ∧
            async_write_some s1 buf so = async_write_some s2 buf so) := by
  refine ⟨fun k m cs fr => rfl, fun k m mr d cid body rest callId t => rfl,
    fun k m mr d callName rest t => rfl,
    fun s1 s2 buf so => ⟨rfl, rfl⟩⟩

/-- C8.  Every `async_read_some` (resp. `async_write_some`) on a
DataNodeConnection reports exactly one `DN_read_req` (resp. `DN_write_req`)
event, whose integer value is the byte length of the supplied buffer, before
the I/O is submitted; the bytes handed to the socket are exactly the supplied
buffer — no framing and no call-id multiplexing is applied. -/
theorem c8_dn_event_reporting (sink : EventName → Nat → EventResp)
    (buf : List Nat) (so : Status) :
    async_read_some sink buf so =
        ⟨[(.DN_READ_REQ, buf.length)], some buf, so⟩ ∧
      async_write_some sink buf so =
        ⟨[(.DN_WRITE_REQ, buf.length)], some buf, so⟩ :=
  ⟨rfl, rfl⟩

/- ================ Per-call timeout (spec section 4.3) ================ -/

/-- Connection lifecycle states (spec section 4.3). -/
inductive ConnLifecycle where
  | created
  | connectingState
  | handshaking
  | ready
  | disconnected
deriving DecidableEq, Repr

/-- The connection's demultiplexing state: lifecycle plus the in-flight calls
`(call_id, method_name)`. -/
structure RpcConnState where
  lifecycle : ConnLifecycle
  inFlight : List (Nat × String)
deriving DecidableEq, Repr

/-- Modelled from the spec: firing of a call's deadline timer (section 4.3) —
the timed-out call is removed from the in-flight map and forcibly completed
with `TIMEOUT`; the connection itself is NOT closed, so every other in-flight
call stays.  Returns the new connection state and the continuation
invocations `(call_id, Status)` the firing produces.  The connection sources
(`rpc_connection_impl.h`) are not in the source tree. -/
def handleCallTimeout (c : RpcConnState) (cid : Nat) :
    RpcConnState × List (Nat × Status) :=
  (⟨c.lifecycle, c.inFlight.filter (fun p => p.1 != cid)⟩,
    (c.inFlight.filter (fun p => p.1 == cid)).map
      (fun p => (p.1, Status.err .timedOut "")))

/-- Externally visible happenings on one connection while waiting. -/
inductive ConnEvent where
  | readWouldBlock
  | deadlineFired (cid : Nat)

/-- Modelled from the spec: one connection reaction — a silent socket
(`would_block`) makes no progress and completes nothing; a deadline firing is
handled by `handleCallTimeout`. -/
def connStep (c : RpcConnState) (e : ConnEvent) :
    RpcConnState × List (Nat × Status) :=
  match e with
  | .readWouldBlock => (c, [])
  | .deadlineFired cid => handleCallTimeout c cid

/-- Run a sequence of connection events, accumulating completions. -/
def runConnEvents (c : RpcConnState) :
    List ConnEvent → RpcConnState × List (Nat × Status)
  | [] => (c, [])
  | e :: rest =>
    let s := connStep c e
    let s2 := runConnEvents s.1 rest
    (s2.1, s.2 ++ s2.2)

/-- C6.  `TestTimeout`: with a silent socket (`would_block`) and the per-call
deadline firing for call 1, that call's continuation receives a Status of
kind TIMEOUT; and in general a per-call timeout never changes the
connection's lifecycle state and keeps every other in-flight call, so other
calls on that connection continue. -/
theorem c6_timeout_completes_call_only :
    runConnEvents ⟨.ready, [(1, "test"), (2, "other")]⟩
        [.readWouldBlock, .deadlineFired 1] =
      (⟨.ready, [(2, "other")]⟩, [(1, Status.err .timedOut "")]) ∧
      (∀ (c : RpcConnState) (cid : Nat),
        (handleCallTimeout c cid).1.lifecycle = c.lifecycle ∧
          (handleCallTimeout c cid).1.inFlight =
            c.inFlight.filter (fun p => p.1 != cid)) := by
  exact ⟨rfl, fun c cid => ⟨rfl, rfl⟩⟩

/- ======= Thread-local storage (libhdfs thread_local_storage.c) ======= -/

/-- The per-thread state kept in TLS (`struct ThreadLocalState`): the JNI
environment pointer and the two lazily allocated exception strings.  The
`env` model records whether the pointer is NULL, whether `*env` is NULL, and
how `GetJavaVM` behaves on it. -/
structure JniEnvModel where
  derefNull : Bool
  getJavaVMOk : Bool
  detachOk : Bool
deriving DecidableEq, Repr

/-- `struct ThreadLocalState` as used by `thread_local_storage.c`. -/
structure ThreadLocalState where
  env : Option JniEnvModel
  lastExceptionStackTrace : Option String
  lastExceptionRootCause : Option String
deriving DecidableEq, Repr

/-- The global TLS world visible to one thread: whether `gTlsIndex` is
allocated (`none` models `TLS_OUT_OF_INDEXES`), what a `TlsAlloc` call would
return (`none` models allocation failure), the thread's slot value (`none`
models NULL: the thread never stored a state), and whether `TlsGetValue`
fails spuriously (`GetLastError() != ERROR_SUCCESS` on a NULL read). -/
structure TlsWorld where
  gTlsIndex : Option Nat
  tlsAllocResult : Option Nat
  slotValue : Option ThreadLocalState
  getValueFails : Bool
deriving DecidableEq, Repr

/-- The observable side effects of the detach path. -/
inductive TlsEffect where
  | detachedThread
  | freedStackTrace
  | freedRootCause
  | freedState
deriving DecidableEq, Repr

/-- The nonzero code `threadLocalStorageGet` returns when `TlsAlloc` fails
(`TLS_OUT_OF_INDEXES`, i.e. `0xFFFFFFFF`). -/
def tlsOutOfIndexes : Nat := 4294967295

/-- The error code the defensive `TlsGetValue`-failure branch returns in this
model (any nonzero `GetLastError` value). -/
def tlsGetValueErrCode : Nat := 87

/-- Embeds `threadLocalStorageGet` (`thread_local_storage.c`, lines 218–252):
allocate `gTlsIndex` on first use (returning `TLS_OUT_OF_INDEXES` if
`TlsAlloc` fails); a non-NULL slot is returned with code 0; a NULL slot with
`GetLastError() == ERROR_SUCCESS` sets `*state = NULL` and returns 0; a
failing `TlsGetValue` returns the nonzero error code. -/
def threadLocalStorageGet (w : TlsWorld) :
    Nat × Option ThreadLocalState × TlsWorld :=
  match w.gTlsIndex with
  | none =>
    match w.tlsAllocResult with
    | none => (tlsOutOfIndexes, none, w)
    | some idx =>
      let w2 : TlsWorld := { w with gTlsIndex := some idx }
      match w2.slotValue with
      | some s => (0, some s, w2)
      | none =>
        if w2.getValueFails then (tlsGetValueErrCode, none, w2)
        else (0, none, w2)
  | some _ =>
    match w.slotValue with
    | some s => (0, some s, w)
    | none =>
      if w.getValueFails then (tlsGetValueErrCode, none, w)
      else (0, none, w)

/-- Embeds `detachCurrentThreadFromJvm` (`thread_local_storage.c`, lines
38–77): it re-obtains the state from TLS; if the lookup fails or the state is
NULL it returns with no effect; likewise if `state->env` or `*env` is NULL;
otherwise it calls `DetachCurrentThread` when `GetJavaVM` succeeds (detach
failure only logs) and then frees the exception strings and the state
itself. -/
def detachCurrentThreadFromJvm (w : TlsWorld) : TlsWorld × List TlsEffect :=
  match threadLocalStorageGet w with
  | (ret, stOpt, w2) =>
    if ret ≠ 0 then (w2, [])
    else
      match stOpt with
      | none => (w2, [])
      | some st =>
        match st.env with
        | none => (w2, [])
        | some envm =>
          if envm.derefNull then (w2, [])
          else
            let detachPart :=
              if envm.getJavaVMOk then [TlsEffect.detachedThread] else []
            let frees :=
              (if st.lastExceptionStackTrace.isSome
                then [TlsEffect.freedStackTrace] else []) ++
              (if st.lastExceptionRootCause.isSome
                then [TlsEffect.freedRootCause] else []) ++
              [TlsEffect.freedState]
            (w2, detachPart ++ frees)

set_option linter.unusedVariables false in
/-- Embeds `hdfsThreadDestructor` (`thread_local_storage.c`, lines 123–128):
the body ignores its argument `v` — the comment in the source says `v` would
contain the state but it is re-obtained from TLS anyway — and simply calls
`detachCurrentThreadFromJvm`. -/
def hdfsThreadDestructor (v : Option ThreadLocalState) (w : TlsWorld) :
    TlsWorld × List TlsEffect :=
  detachCurrentThreadFromJvm w

/-- C9.  The thread-cleanup routine's behaviour is independent of its
argument: for every pointer `v` (including NULL) and every TLS world,
`hdfsThreadDestructor v` has exactly the effect of `hdfsThreadDestructor`
with a NULL argument, namely that of `detachCurrentThreadFromJvm`, which
re-obtains the state from thread-local storage; calling the cleanup with or
without the thread-state pointer is equivalent. -/
theorem c9_destructor_ignores_argument (v : Option ThreadLocalState)
    (w : TlsWorld) :
    hdfsThreadDestructor v w = hdfsThreadDestructor none w ∧
      hdfsThreadDestructor v w = detachCurrentThreadFromJvm w :=
  ⟨rfl, rfl⟩

/-- C10.  For a thread that has never stored a ThreadLocalState (NULL slot,
`TlsGetValue` well-behaved): `threadLocalStorageGet` returns 0 and yields a
NULL state, allocating the TLS index on first use; consequently
`detachCurrentThreadFromJvm` — and therefore `hdfsThreadDestructor` — has no
effect for such a thread (no JVM detach and no free); and the same holds when
a stored state has a NULL `env` field. -/
theorem c10_fresh_thread_noop (w : TlsWorld) (idx : Nat)
    (hslot : w.slotValue = none) (hok : w.getValueFails = false)
    (hidx : w.gTlsIndex = none) (halloc : w.tlsAllocResult = some idx) :
    threadLocalStorageGet w = (0, none, { w with gTlsIndex := some idx }) ∧
      (detachCurrentThreadFromJvm w).2 = [] ∧
      (∀ v, (hdfsThreadDestructor v w).2 = []) ∧
      (∀ (w2 : TlsWorld) (st : ThreadLocalState),
        w2.slotValue = some st → st.env = none →
          (detachCurrentThreadFromJvm w2).2 = []) := by
  have hget : threadLocalStorageGet w =
      (0, none, { w with gTlsIndex := some idx }) := by
    simp [threadLocalStorageGet, hidx, halloc, hslot, hok]
  refine ⟨hget, ?_, ?_, ?_⟩
  · simp [detachCurrentThreadFromJvm, hget]
  · intro v
    simp [hdfsThreadDestructor, detachCurrentThreadFromJvm, hget]
  · intro w2 st hs he
    cases hidx2 : w2.gTlsIndex with
    | none =>
      cases halloc2 : w2.tlsAllocResult with
      | none =>
        simp [detachCurrentThreadFromJvm, threadLocalStorageGet, hidx2,
          halloc2, tlsOutOfIndexes]
      | some j =>
        simp [detachCurrentThreadFromJvm, threadLocalStorageGet, hidx2,
          halloc2, hs, he]
    | some j =>
      simp [detachCurrentThreadFromJvm, threadLocalStorageGet, hidx2, hs, he]

/-- Witness for C10 at concrete worlds: a fresh-thread world (no index
allocated yet, `TlsAlloc` would return index 5, NULL slot, well-behaved
`TlsGetValue`), a concrete destructor argument, and a world whose stored
state has a NULL `env`. -/
theorem c10_fresh_thread_noop_witness :
    threadLocalStorageGet ⟨none, some 5, none, false⟩ =
        (0, none, ⟨some 5, some 5, none, false⟩) ∧
      (detachCurrentThreadFromJvm ⟨none, some 5, none, false⟩).2 = [] ∧
      (hdfsThreadDestructor (some ⟨none, none, none⟩)
          ⟨none, some 5, none, false⟩).2 = [] ∧
      (detachCurrentThreadFromJvm
          ⟨some 9, some 9, some ⟨none, none, none⟩, false⟩).2 = [] := by
  obtain ⟨h1, h2, h3, h4⟩ :=
    c10_fresh_thread_noop ⟨none, some 5, none, false⟩ 5 rfl rfl rfl rfl
  exact ⟨h1, h2, h3 (some ⟨none, none, none⟩),
    h4 ⟨some 9, some 9, some ⟨none, none, none⟩, false⟩ ⟨none, none, none⟩
      rfl rfl⟩
